import Mathlib

/-!
Shallow embedding of the balance-reconciliation core of the PWA banking
application (the application module given as src/unnamed/part_005, first
document, lines 1-2660, together with the remote gateway
src/src/services/supabaseDataClient.js).

Conventions of the embedding:
* Amounts are modelled as integers (the source stores JS numbers; every
  claim is about exact signed arithmetic, not rounding).
* Each asynchronous operation is modelled as a state transformer that runs
  to completion; the outcome of every awaited remote-gateway call is an
  explicit parameter (the gateway functions catch their own errors and
  resolve with a row / null / false, so a call is `ok`, resolves `null`,
  or the awaited expression itself throws).
* React `setX(prev => f prev)` functional updates compose sequentially
  inside one operation; `setBalance(balance)` reverts to the value the
  operation closed over, i.e. the pre-operation balance.
-/

namespace PWABank

/-- Identifier of a transaction record: `temp n` models the locally
generated string id `temp_${Date.now()}` used before remote confirmation,
`remote n` an authoritative id assigned by the remote store, and
`localKey n` an auto-incremented key assigned by the local staging store
(IndexedDB) on the import path. -/
inductive TxnId where
  | temp (n : Nat)
  | remote (n : Nat)
  | localKey (n : Nat)
deriving DecidableEq, Repr

/-- Is this a pre-confirmation temporary id? -/
def TxnId.isTemp : TxnId → Bool
  | .temp _ => true
  | _ => false

/-- One ledger entry, as kept in the in-memory transaction list, in the
remote `transactions` collection and (modulo the `ownerEmail` spelling of
the owner field) in the local staging store. `amount` is the signed
amount: positive for income, negative for expense. -/
structure Txn where
  id : TxnId
  owner_email : String
  type : String
  amount : Int
  description : String
  category : String
  date : String
deriving DecidableEq, Repr

/-- A recurring payment obligation (`recurring_payments` collection). -/
structure RecurringPayment where
  id : Nat
  owner_email : String
  amount : Int
  description : String
  category : String
  frequency : String
  next_date : String
deriving DecidableEq, Repr

/-- A bill reminder (`bill_reminders` collection). -/
structure BillReminder where
  id : Nat
  owner_email : String
  description : String
  amount : Int
  due_date : String
  category : String
  is_paid : Bool
deriving DecidableEq, Repr

/-- The reconciliation engine's reactive state: displayed balance, the
in-memory transaction list (most recent first), the recurring payments and
bill reminders, and the remote account row id (none until an account has
been created). -/
structure AppState where
  balance : Int
  transactions : List Txn
  recurringPayments : List RecurringPayment
  billReminders : List BillReminder
  accountId : Option Nat
deriving DecidableEq, Repr

/-- Outcome of one awaited remote-gateway call as seen by the caller: the
promise resolves with a row (`ok`), resolves with the null sentinel the
gateway returns after catching its own error (`nullRes`), or the awaited
expression itself throws (`thrown`, e.g. a ReferenceError raised at the
call site). -/
inductive RemoteStatus where
  | ok
  | nullRes
  | thrown
deriving DecidableEq, Repr

/-- Outcome of a remote delete call, which resolves with a boolean. -/
inductive DeleteStatus where
  | ok
  | failed
  | thrown
deriving DecidableEq, Repr

/-- Sum of the signed amounts of a transaction list. -/
def txnSum (l : List Txn) : Int := (l.map (fun t => t.amount)).sum

/-- addTransaction (part_005 lines 396-457). `tempN` is the
`Date.now()` value used for the temporary id, `rid` the id the remote
store assigns when the insert succeeds, `remote` the outcome of the
awaited `addSupabaseTransaction` call. On success the temporary record is
replaced by the authoritative row and the optimistic balance is kept (the
follow-up remote account write does not change local state); on a null
result or a throw the temporary record is removed and the balance is
reverted to the closed-over pre-operation value. -/
def addTransaction (s : AppState) (user_email : String) (type : String)
    (amount : Int) (description category date : String)
    (tempN rid : Nat) (remote : RemoteStatus) : AppState :=
  let amountValue : Int := amount * (if type = "expense" then -1 else 1)
  let newBalance : Int :=
    if s.accountId.isSome then s.balance + amountValue else s.balance
  let tempId : TxnId := .temp tempN
  let tempTransaction : Txn :=
    { id := tempId, owner_email := user_email, type := type,
      amount := amountValue, description := description,
      category := category, date := date }
  let txns1 : List Txn := tempTransaction :: s.transactions
  match remote with
  | .ok =>
      let newTransaction : Txn := { tempTransaction with id := .remote rid }
      { s with
        balance := newBalance,
        transactions := newTransaction :: txns1.filter (fun t => t.id != tempId) }
  | .nullRes =>
      { s with
        balance := if s.accountId.isSome then s.balance else newBalance,
        transactions := txns1.filter (fun t => t.id != tempId) }
  | .thrown =>
      { s with
        balance := if s.accountId.isSome then s.balance else newBalance,
        transactions := txns1.filter (fun t => t.id != tempId) }

/-- handleAdd of the AddTxn widget (part_005 lines 2535-2551) composed
with the `onAdd` callback, which is wired to addTransaction: an expense
whose entered amount exceeds the displayed balance is rejected with a
toast before `onAdd` is invoked; otherwise the add proceeds. -/
def handleAdd (s : AppState) (user_email : String) (type : String)
    (amount : Int) (description category date : String)
    (tempN rid : Nat) (remote : RemoteStatus) : AppState :=
  if type = "expense" ∧ s.balance < amount then s
  else addTransaction s user_email type amount description category date tempN rid remote

/-- Filtering away an id that no element of the list carries keeps the
list unchanged. -/
theorem filter_id_ne_of_fresh (l : List Txn) (i : TxnId)
    (h : ∀ t ∈ l, t.id ≠ i) : l.filter (fun t => t.id != i) = l := by
  induction l with
  | nil => rfl
  | cons a l ih =>
      have ha : a.id ≠ i := h a (List.mem_cons_self a l)
      have hl : ∀ t ∈ l, t.id ≠ i := fun t ht => h t (List.mem_cons_of_mem a ht)
      simp [List.filter_cons, ha, ih hl]

/-- Prepending a record carrying exactly the filtered id and then
filtering removes just that record. -/
theorem filter_cons_self_id (l : List Txn) (tt : Txn) (i : TxnId)
    (htt : tt.id = i) (h : ∀ t ∈ l, t.id ≠ i) :
    (tt :: l).filter (fun t => t.id != i) = l := by
  simp [List.filter_cons, htt, filter_id_ne_of_fresh l i h]

/-- C2: for every call to addTransaction whose remote create does not
succeed (the gateway resolves null or the awaited call throws), once the
rollback in the failure branch completes the displayed balance equals its
pre-call value and the transaction list is exactly the pre-call list: the
temporary record is gone and no partial state remains. The freshness
hypothesis states that the generated temporary id does not collide with an
id already in the list. -/
theorem addTransaction_failure_rolls_back (s : AppState)
    (ue ty : String) (amount : Int) (de ca da : String)
    (tempN rid : Nat) (remote : RemoteStatus)
    (hfail : remote ≠ .ok)
    (hfresh : ∀ t ∈ s.transactions, t.id ≠ .temp tempN) :
    (addTransaction s ue ty amount de ca da tempN rid remote).balance = s.balance ∧
    (addTransaction s ue ty amount de ca da tempN rid remote).transactions
      = s.transactions := by
  have hfilter := filter_cons_self_id s.transactions
      { id := .temp tempN, owner_email := ue, type := ty,
        amount := amount * (if ty = "expense" then -1 else 1),
        description := de, category := ca, date := da }
      (.temp tempN) rfl hfresh
  cases remote with
  | ok => exact absurd rfl hfail
  | nullRes =>
      constructor
      · simp only [addTransaction]
        cases h : s.accountId <;> simp [h]
      · simpa [addTransaction] using hfilter
  | thrown =>
      constructor
      · simp only [addTransaction]
        cases h : s.accountId <;> simp [h]
      · simpa [addTransaction] using hfilter

/-- A concrete confirmed income transaction used by the sample states. -/
def txSalary : Txn where
  id := TxnId.remote 7
  owner_email := "a@b.c"
  type := "income"
  amount := 1000
  description := "salary"
  category := "Income"
  date := "2025-01-01"

/-- A concrete idle state: balance 1000, one confirmed transaction, an
account row present. -/
def sampleState : AppState where
  balance := 1000
  transactions := [txSalary]
  recurringPayments := []
  billReminders := []
  accountId := some 1

/-- Witness for C2: a concrete failing add (expense of 200 against balance
1000, gateway resolves null) leaves the concrete state untouched. -/
theorem addTransaction_failure_rolls_back_witness :
    (addTransaction sampleState "a@b.c" "expense" 200 "groceries" "Food"
      "2025-01-02" 42 9 RemoteStatus.nullRes).balance = sampleState.balance ∧
    (addTransaction sampleState "a@b.c" "expense" 200 "groceries" "Food"
      "2025-01-02" 42 9 RemoteStatus.nullRes).transactions
      = sampleState.transactions := by
  exact addTransaction_failure_rolls_back sampleState "a@b.c" "expense" 200
    "groceries" "Food" "2025-01-02" 42 9 RemoteStatus.nullRes
    (by decide) (by decide)

/-- C7: an expense whose amount exceeds the current displayed balance is
rejected by handleAdd's insufficient-balance check before any optimistic
mutation: the resulting state is exactly the pre-call state, so the
balance is unchanged and no transaction, temporary or confirmed, is
created. -/
theorem handleAdd_insufficient_balance_rejected (s : AppState)
    (ue : String) (amount : Int) (de ca da : String)
    (tempN rid : Nat) (remote : RemoteStatus)
    (h : s.balance < amount) :
    handleAdd s ue "expense" amount de ca da tempN rid remote = s := by
  simp [handleAdd, h]

/-- Witness for C7: at balance 1000.00 an expense of 1500.00 is rejected
and the state is unchanged. -/
theorem handleAdd_insufficient_balance_rejected_witness :
    handleAdd sampleState "a@b.c" "expense" 1500 "tv" "Shopping"
      "2025-01-02" 42 9 RemoteStatus.ok = sampleState := by
  exact handleAdd_insufficient_balance_rejected sampleState "a@b.c" 1500
    "tv" "Shopping" "2025-01-02" 42 9 RemoteStatus.ok (by decide)

/-- handleSaveBalance (part_005 lines 1972-2000): the user types a new
balance; once parseFloat yields a number, the existing account row is
updated (or one is created when none exists) and, if the gateway confirms
the row, the displayed balance is set directly to the typed value.
`newAccId` is the id the remote store assigns when a row is created. The
account-number string is presentation state not tracked here. -/
def handleSaveBalance (s : AppState) (balanceValue : Int)
    (newAccId : Nat) (remote : RemoteStatus) : AppState :=
  match s.accountId with
  | some aid =>
      match remote with
      | .ok => { s with balance := balanceValue, accountId := some aid }
      | _ => s
  | none =>
      match remote with
      | .ok => { s with balance := balanceValue, accountId := some newAccId }
      | _ => s

/-- One completed run of addTransaction together with the outcome of its
remote create, for reasoning about sequences of operations. -/
structure AddEvent where
  user_email : String
  type : String
  amount : Int
  description : String
  category : String
  date : String
  tempN : Nat
  rid : Nat
  remote : RemoteStatus
deriving DecidableEq, Repr

/-- Run one recorded addTransaction event. -/
def applyAddEvent (s : AppState) (e : AddEvent) : AppState :=
  addTransaction s e.user_email e.type e.amount e.description e.category
    e.date e.tempN e.rid e.remote

/-- Run a sequence of addTransaction events, oldest first. -/
def applyAddEvents (s : AppState) : List AddEvent → AppState
  | [] => s
  | e :: es => applyAddEvents (applyAddEvent s e) es

/-- No record of the list still carries a pre-confirmation temporary id;
this holds whenever no operation is in flight, since every completed
addTransaction removes the temporary record it prepended. -/
abbrev NoTempIds (l : List Txn) : Prop := ∀ t ∈ l, t.id.isTemp = false

theorem ne_temp_of_not_isTemp {t : Txn} (h : t.id.isTemp = false)
    (n : Nat) : t.id ≠ TxnId.temp n := by
  intro hid
  rw [hid] at h
  simp [TxnId.isTemp] at h

theorem addTransaction_accountId (s : AppState) (ue ty : String)
    (amount : Int) (de ca da : String) (tempN rid : Nat)
    (remote : RemoteStatus) :
    (addTransaction s ue ty amount de ca da tempN rid remote).accountId
      = s.accountId := by
  cases remote <;> simp [addTransaction]

theorem addTransaction_noTempIds (s : AppState) (ue ty : String)
    (amount : Int) (de ca da : String) (tempN rid : Nat)
    (remote : RemoteStatus) (h : NoTempIds s.transactions) :
    NoTempIds (addTransaction s ue ty amount de ca da tempN rid
      remote).transactions := by
  have hfresh : ∀ t ∈ s.transactions, t.id ≠ TxnId.temp tempN :=
    fun t ht => ne_temp_of_not_isTemp (h t ht) tempN
  have hfilter := filter_cons_self_id s.transactions
      { id := .temp tempN, owner_email := ue, type := ty,
        amount := amount * (if ty = "expense" then -1 else 1),
        description := de, category := ca, date := da }
      (.temp tempN) rfl hfresh
  have hfilter2 : s.transactions.filter (fun t => t.id != TxnId.temp tempN)
      = s.transactions := filter_id_ne_of_fresh _ _ hfresh
  cases remote with
  | ok =>
      simp only [addTransaction, hfilter]
      intro t ht
      rcases List.mem_cons.mp ht with h1 | h2
      · subst h1; rfl
      · exact h t h2
  | nullRes => simpa [addTransaction, hfilter, hfilter2] using h
  | thrown => simpa [addTransaction, hfilter, hfilter2] using h

theorem addTransaction_balance_minus_sum (s : AppState) (ue ty : String)
    (amount : Int) (de ca da : String) (tempN rid : Nat)
    (remote : RemoteStatus) (hacc : s.accountId.isSome = true)
    (h : NoTempIds s.transactions) :
    (addTransaction s ue ty amount de ca da tempN rid remote).balance
      - txnSum (addTransaction s ue ty amount de ca da tempN rid
          remote).transactions
      = s.balance - txnSum s.transactions := by
  have hfresh : ∀ t ∈ s.transactions, t.id ≠ TxnId.temp tempN :=
    fun t ht => ne_temp_of_not_isTemp (h t ht) tempN
  have hfilter := filter_cons_self_id s.transactions
      { id := .temp tempN, owner_email := ue, type := ty,
        amount := amount * (if ty = "expense" then -1 else 1),
        description := de, category := ca, date := da }
      (.temp tempN) rfl hfresh
  have hfilter2 : s.transactions.filter (fun t => t.id != TxnId.temp tempN)
      = s.transactions := filter_id_ne_of_fresh _ _ hfresh
  cases remote with
  | ok =>
      simp only [addTransaction, hfilter, hacc, if_true, txnSum,
        List.map_cons, List.sum_cons]
      ring
  | nullRes => simp [addTransaction, hfilter, hfilter2, hacc]
  | thrown => simp [addTransaction, hfilter, hfilter2, hacc]

/-- C1 (amended): over any sequence of completed addTransaction
operations — confirmed or rolled back — the quantity
`balance − sum of the in-memory signed amounts` is invariant, provided an
account row exists and no temporary record is pending. The balance
therefore equals the sum of all confirmed transaction amounts exactly on
those histories whose base value (the balance directly set by the user
through handleSaveBalance, or loaded from the stored account row) is
zero; handleSaveBalance resets that base arbitrarily, which is what the
counterexample exhibits. -/
theorem applyAddEvents_balance_minus_sum (a : Nat) (s : AppState)
    (es : List AddEvent) (hacc : s.accountId = some a)
    (h : NoTempIds s.transactions) :
    (applyAddEvents s es).balance
      - txnSum (applyAddEvents s es).transactions
      = s.balance - txnSum s.transactions := by
  induction es generalizing s with
  | nil => rfl
  | cons e es ih =>
      have hsome : s.accountId.isSome = true := by rw [hacc]; rfl
      have hacc' : (applyAddEvent s e).accountId = some a := by
        rw [applyAddEvent, addTransaction_accountId, hacc]
      have h' : NoTempIds (applyAddEvent s e).transactions :=
        addTransaction_noTempIds s _ _ _ _ _ _ _ _ _ h
      calc (applyAddEvents (applyAddEvent s e) es).balance
            - txnSum (applyAddEvents (applyAddEvent s e) es).transactions
          = (applyAddEvent s e).balance
            - txnSum (applyAddEvent s e).transactions := ih _ hacc' h'
        _ = s.balance - txnSum s.transactions :=
            addTransaction_balance_minus_sum s _ _ _ _ _ _ _ _ _ hsome h

/-- A fresh state satisfying the balance-equals-sum invariant. -/
def zeroState : AppState where
  balance := 0
  transactions := []
  recurringPayments := []
  billReminders := []
  accountId := some 1

/-- Counterexample to C1 as stated: starting from an idle state in which
the balance (0) equals the sum of the owner's confirmed transactions
(none), one completed handleSaveBalance interaction — no reconciliation
in flight afterwards — sets the displayed balance to the user-typed 500
while creating no transaction, so the balance no longer equals the sum of
the confirmed transaction amounts. -/
theorem balance_eq_sum_counterexample :
    (handleSaveBalance zeroState 500 1 RemoteStatus.ok).balance = 500 ∧
    txnSum (handleSaveBalance zeroState 500 1 RemoteStatus.ok).transactions
      = 0 ∧
    (handleSaveBalance zeroState 500 1 RemoteStatus.ok).balance ≠
      txnSum (handleSaveBalance zeroState 500 1
        RemoteStatus.ok).transactions := by
  refine ⟨rfl, rfl, ?_⟩
  decide

/-- A completed, confirmed add event (income 300). -/
def evAddOk : AddEvent where
  user_email := "a@b.c"
  type := "income"
  amount := 300
  description := "bonus"
  category := "Income"
  date := "2025-01-03"
  tempN := 50
  rid := 11
  remote := RemoteStatus.ok

/-- A completed, rolled-back add event (expense 40, gateway null). -/
def evAddFail : AddEvent where
  user_email := "a@b.c"
  type := "expense"
  amount := 40
  description := "snack"
  category := "Food"
  date := "2025-01-04"
  tempN := 51
  rid := 12
  remote := RemoteStatus.nullRes

/-- Witness for C1 (amended): on the concrete state with balance 1000 and
one confirmed transaction of amount 1000, a confirmed add followed by a
rolled-back add leaves `balance − sum` at its initial value 0. -/
theorem applyAddEvents_balance_minus_sum_witness :
    (applyAddEvents sampleState [evAddOk, evAddFail]).balance
      - txnSum (applyAddEvents sampleState [evAddOk, evAddFail]).transactions
      = sampleState.balance - txnSum sampleState.transactions := by
  exact applyAddEvents_balance_minus_sum 1 sampleState [evAddOk, evAddFail]
    (by decide) (by decide)

/-- Result of running a JS function that may raise an uncaught
ReferenceError: it either returns with a value or throws, and the
constructor records the (unchanged) state at the point of the throw. -/
inductive JsResult (α : Type) where
  | value (a : α)
  | referenceError (a : α)
deriving DecidableEq, Repr

/-- saveEditedTransaction as the Dashboard component executes it
(part_005 lines 2014-2080). The Dashboard component receives neither a
`setTransactions` prop (its props are destructured on lines 1958-1961)
nor defines one, so the first statement that mutates the transaction
list — the `setTransactions` call on line 2031, inside the try — raises
a ReferenceError. The catch on lines 2077-2079 only logs. The statements
before the throw (lines 2019-2029) merely compute the signed amount and
the updated record; everything after it — the in-place replacement, the
balance update on line 2044 and the remote update on line 2051 (itself an
unimported identifier) — is unreachable, so the operation completes with
the state exactly as it was. -/
def saveEditedTransaction (s : AppState) (editingTransaction : Txn)
    (newType : String) (newAmount : Int)
    (newDescription newCategory : String) : AppState :=
  let amountValue : Int := newAmount * (if newType = "expense" then -1 else 1)
  let updatedLocalTransaction : Txn :=
    { editingTransaction with
        type := newType, amount := amountValue,
        description := newDescription, category := newCategory }
  -- line 2031: setTransactions(...) — unbound in this component; the
  -- ReferenceError transfers control to the catch, which only logs
  let _ := updatedLocalTransaction
  s

/-- A concrete confirmed expense (amount -50) to be edited. -/
def txGroceries : Txn where
  id := TxnId.remote 1
  owner_email := "a@b.c"
  type := "expense"
  amount := -50
  description := "groceries"
  category := "Food"
  date := "2025-01-05"

/-- A concrete idle state holding the expense to be edited. -/
def editState : AppState where
  balance := 1000
  transactions := [txGroceries]
  recurringPayments := []
  billReminders := []
  accountId := some 1

/-- C3 (code evaluated at the failing input): editing the -50 expense
into a +100 income does nothing at all — the unbound `setTransactions`
throws before any optimistic mutation and the catch only logs — so the
state is returned unchanged: the record is not replaced and the balance
does not change by the claimed delta of 150 (the claimed post-balance
1150 differs from the actual post-balance 1000), and since no remote
update is ever issued, the restore-on-failure behaviour the claim
describes does not exist either. -/
theorem saveEditedTransaction_noop_despite_edit :
    saveEditedTransaction editState txGroceries "income" 100 "refund"
      "Income" = editState ∧
    editState.balance + (100 - txGroceries.amount)
      ≠ (saveEditedTransaction editState txGroceries "income" 100 "refund"
          "Income").balance := by
  refine ⟨rfl, by decide⟩

/-- handleDeleteTransaction as the Dashboard component executes it
(part_005 lines 2083-2134). The guards on lines 2084-2088 read only
bound identifiers (the user and the `transactions` prop); the first
state mutation, the `setTransactions` call on line 2091, references an
identifier the component neither receives among its props (lines
1958-1961) nor defines, so it raises a ReferenceError that nothing
catches — the function body has no try, and the `.catch` on line 2124
belongs to the remote-delete promise, which is never created. The call
therefore either returns early (record not found) or throws, in both
cases with the state unchanged; the optimistic removal, the balance
change and the remote delete with its rollback (lines 2091-2133) are
unreachable. -/
def handleDeleteTransaction (s : AppState) (i : TxnId) :
    JsResult AppState :=
  match s.transactions.find? (fun t => t.id == i) with
  | none => .value s
  | some _ => .referenceError s

/-- C4 (code evaluated at the failing input): asking the dashboard to
delete the confirmed transaction of amount 1000 raises an uncaught
ReferenceError with the state untouched — the record is not removed, the
balance does not change by the claimed −A (the claimed post-balance 0
differs from the actual balance 1000), and no remote delete or rollback
ever runs. -/
theorem handleDeleteTransaction_throws_before_mutation :
    handleDeleteTransaction sampleState (TxnId.remote 7)
      = JsResult.referenceError sampleState ∧
    sampleState.balance - txSalary.amount ≠ sampleState.balance := by
  refine ⟨rfl, by decide⟩

/-- Leap-year test of the proleptic Gregorian calendar JS Date uses. -/
def isLeapYear (y : Nat) : Bool :=
  (y % 4 == 0 && y % 100 != 0) || y % 400 == 0

/-- Length of month `m` (0-based, as JS getMonth) of year `y`. Month
indices past 11 are normalised before this is consulted; the catch-all
arm keeps the function total. -/
def daysInMonth (y m : Nat) : Nat :=
  match m with
  | 0 => 31
  | 1 => if isLeapYear y then 29 else 28
  | 2 => 31
  | 3 => 30
  | 4 => 31
  | 5 => 30
  | 6 => 31
  | 7 => 31
  | 8 => 30
  | 9 => 31
  | 10 => 30
  | _ => 31

/-- A calendar date with the JS Date field conventions: 0-based month,
1-based day. The embedding works in UTC throughout (date-only ISO
strings are parsed as UTC midnight; a runtime whose local offset is zero
sees the same calendar fields). -/
structure YMD where
  year : Nat
  month : Nat
  day : Nat
deriving DecidableEq, Repr

/-- Day normalisation of the JS Date time-value computation: a
day-of-month past the end of the month spills into the following
month(s). The first argument is fuel that makes the recursion
structural; every step removes at least 28 days, so `day` itself is
always enough fuel (see rollDay). -/
def rollDayFuel : Nat → Nat → Nat → Nat → YMD
  | 0, y, m, day => ⟨y, m, day⟩
  | fuel + 1, y, m, day =>
      if day ≤ daysInMonth y m then ⟨y, m, day⟩
      else if m = 11 then rollDayFuel fuel (y + 1) 0 (day - daysInMonth y m)
      else rollDayFuel fuel y (m + 1) (day - daysInMonth y m)

/-- Normalise a (year, 0-based month below 12, day) triple to a valid
calendar date, JS-style. -/
def rollDay (y m day : Nat) : YMD := rollDayFuel day y m day

/-- `d.setMonth(k)`: the month count is normalised into the year, then
the kept day-of-month is normalised against the new month's length. -/
def jsSetMonth (d : YMD) (k : Nat) : YMD :=
  rollDay (d.year + k / 12) (k % 12) d.day

/-- `d.setDate(d.getDate() + n)`. -/
def jsAddDays (d : YMD) (n : Nat) : YMD := rollDay d.year d.month (d.day + n)

/-- `d.setFullYear(y)`: year replaced, month and day kept and then
normalised (Feb 29 of a leap year becomes Mar 1 of a common year). -/
def jsSetFullYear (d : YMD) (y : Nat) : YMD := rollDay y d.month d.day

/-- Value of a decimal digit character, by code-point arithmetic. -/
def digitVal (c : Char) : Option Nat :=
  if '0' ≤ c ∧ c ≤ '9' then some (c.toNat - 48) else none

/-- Read a non-empty run of decimal digits. -/
def digitsRun : List Char → Nat → Option Nat
  | [], acc => some acc
  | c :: cs, acc =>
      match digitVal c with
      | some d => digitsRun cs (acc * 10 + d)
      | none => none

/-- Numeric value of a character-list field, none when empty or
non-numeric. -/
def fieldToNat : List Char → Option Nat
  | [] => none
  | cs => digitsRun cs 0

/-- Split a character list on the dash separator. -/
def splitDash : List Char → List Char → List (List Char)
  | [], acc => [acc.reverse]
  | c :: cs, acc =>
      if c = '-' then acc.reverse :: splitDash cs []
      else splitDash cs (c :: acc)

/-- Parse a date-only ISO string `YYYY-MM-DD` as `new Date(s)` reads it
(UTC midnight; the 0-based month is one below the printed month). -/
def parseISODate (s : String) : YMD :=
  match (splitDash s.data []).map fieldToNat with
  | [some y, some m, some d] => ⟨y, m - 1, d⟩
  | _ => ⟨1970, 0, 1⟩

/-- The decimal digit character for `n % 10`, by code-point arithmetic. -/
def digitChar (n : Nat) : Char := Char.ofNat (48 + n % 10)

/-- Two decimal digits, zero-padded (months and days of an ISO string). -/
def pad2 (n : Nat) : List Char := [digitChar (n / 10), digitChar n]

/-- Four decimal digits, zero-padded (the year of an ISO string). -/
def pad4 (n : Nat) : List Char :=
  [digitChar (n / 1000), digitChar (n / 100), digitChar (n / 10), digitChar n]

/-- Format a date as `toISOString().slice(0, 10)` renders it. -/
def formatISODate (d : YMD) : String :=
  ⟨pad4 d.year ++ '-' :: pad2 (d.month + 1) ++ '-' :: pad2 d.day⟩

/-- The next-occurrence computation of processRecurringPayment (part_005
lines 602-621): parse `next_date`, advance it with the JS Date mutators
selected by the frequency switch (weekly: setDate+7; monthly:
setMonth+1; quarterly: setMonth+3; yearly: setFullYear+1; other
frequencies leave the date alone), and render it back. -/
def advanceNextDate (frequency next_date : String) : String :=
  let d := parseISODate next_date
  let d' :=
    if frequency = "weekly" then jsAddDays d 7
    else if frequency = "monthly" then jsSetMonth d (d.month + 1)
    else if frequency = "quarterly" then jsSetMonth d (d.month + 3)
    else if frequency = "yearly" then jsSetFullYear d (d.year + 1)
    else d
  formatISODate d'

/-- The schedule half of processRecurringPayment (lines 602-632): the
advanced date is computed and pushed to the gateway unconditionally; when
the gateway confirms the row, the stored payment is replaced by it. -/
def advanceSchedule (s : AppState) (payment : RecurringPayment)
    (updRemote : RemoteStatus) : AppState :=
  let updatedPayment : RecurringPayment :=
    { payment with
        next_date := advanceNextDate payment.frequency payment.next_date }
  match updRemote with
  | .ok =>
      { s with
          recurringPayments := s.recurringPayments.map
            (fun p => if p.id = payment.id then updatedPayment else p) }
  | _ => s

/-- processRecurringPayment (part_005 lines 546-641): books the payment
as an expense transaction through the optimistic add path, then runs the
schedule advancement. The advancement is inside the same try block and
placed after the success/failure branch of the transaction create, so it
runs when the create resolves null as well; only a throw from the awaited
create skips it (the catch only rolls back the transaction). -/
def processRecurringPayment (s : AppState) (user_email : String)
    (payment : RecurringPayment) (date : String) (tempN rid : Nat)
    (txRemote updRemote : RemoteStatus) : AppState :=
  let amountValue : Int := payment.amount * (-1)
  let newBalance : Int :=
    if s.accountId.isSome then s.balance + amountValue else s.balance
  let tempId : TxnId := .temp tempN
  let tempTransaction : Txn :=
    { id := tempId, owner_email := user_email, type := "expense",
      amount := amountValue,
      description := payment.description ++ " (Recurring)",
      category := payment.category, date := date }
  let txns1 : List Txn := tempTransaction :: s.transactions
  match txRemote with
  | .thrown =>
      { s with
        transactions := txns1.filter (fun t => t.id != tempId),
        balance := if s.accountId.isSome then s.balance else newBalance }
  | .ok =>
      let newTransaction : Txn := { tempTransaction with id := .remote rid }
      let s1 : AppState :=
        { s with
          transactions :=
            newTransaction :: txns1.filter (fun t => t.id != tempId),
          balance := newBalance }
      advanceSchedule s1 payment updRemote
  | .nullRes =>
      let s1 : AppState :=
        { s with
          transactions := txns1.filter (fun t => t.id != tempId),
          balance := if s.accountId.isSome then s.balance else newBalance }
      advanceSchedule s1 payment updRemote

/-- A concrete monthly payment whose next occurrence is 2025-01-31. -/
def payRent : RecurringPayment where
  id := 3
  owner_email := "a@b.c"
  amount := 500
  description := "rent"
  category := "Rent"
  frequency := "monthly"
  next_date := "2025-01-31"

/-- A concrete idle state holding the monthly payment. -/
def recState : AppState where
  balance := 2000
  transactions := []
  recurringPayments := [payRent]
  billReminders := []
  accountId := some 1

/-- Counterexample to C5 as stated: processing the monthly payment whose
next occurrence is 2025-01-31, with both remote calls succeeding, stores
a next-occurrence of 2025-03-03 — the JS setMonth day-of-month overflow
spills past February — so the new date is not a calendar date in
February (its 0-based month is 2, March, not 1). -/
theorem processRecurringPayment_jan31_counterexample :
    ((processRecurringPayment recState "a@b.c" payRent "2025-01-31" 60 13
        RemoteStatus.ok RemoteStatus.ok).recurringPayments.map
      (fun p => p.next_date)) = ["2025-03-03"] ∧
    (parseISODate (advanceNextDate payRent.frequency payRent.next_date)).month
      ≠ 1 := by
  constructor
  · rfl
  · decide

/-- C5 (amended): monthly, quarterly and yearly advancement add calendar
months respectively years while keeping the day-of-month, and a kept day
past the target month's length overflows into the following month (JS
Date normalisation) instead of clamping to the month's last day; weekly
advancement adds a fixed 7 days. Concretely: 2025-01-31 + 1 month gives
2025-03-03 (not 2025-02-28); a day that does fit is kept, as in
2025-01-28 + 1 month = 2025-02-28 and 2025-02-15 + 1 month = 2025-03-15;
2025-11-30 + 3 months rolls the year to 2026-03-02 via the February
overflow; 2024-02-29 + 1 year overflows to 2025-03-01; and
2025-02-26 + 7 days is 2025-03-05. -/
theorem advanceNextDate_calendar_semantics :
    advanceNextDate "monthly" "2025-01-31" = "2025-03-03" ∧
    advanceNextDate "monthly" "2025-01-28" = "2025-02-28" ∧
    advanceNextDate "monthly" "2025-02-15" = "2025-03-15" ∧
    advanceNextDate "quarterly" "2025-11-30" = "2026-03-02" ∧
    advanceNextDate "yearly" "2024-02-29" = "2025-03-01" ∧
    advanceNextDate "weekly" "2025-02-26" = "2025-03-05" := by
  exact ⟨rfl, rfl, rfl, rfl, rfl, rfl⟩

/-- A concrete monthly payment with a mid-month next occurrence. -/
def paySubscription : RecurringPayment where
  id := 4
  owner_email := "a@b.c"
  amount := 100
  description := "subscription"
  category := "Bills"
  frequency := "monthly"
  next_date := "2025-01-15"

/-- A concrete idle state holding that payment. -/
def recState2 : AppState where
  balance := 2000
  transactions := []
  recurringPayments := [paySubscription]
  billReminders := []
  accountId := some 1

/-- C6 (code evaluated at the failing input): when the remote transaction
create resolves null, processRecurringPayment rolls the optimistic
transaction and balance back, but — because the schedule advancement sits
after the success/failure branch inside the same try block — it still
advances the stored next-occurrence date from 2025-01-15 to 2025-02-15.
The claim that no date mutation occurs when the transaction half fails is
violated by the code. -/
theorem processRecurringPayment_failed_create_still_advances :
    (processRecurringPayment recState2 "a@b.c" paySubscription
        "2025-01-15" 61 14 RemoteStatus.nullRes RemoteStatus.ok).transactions
      = [] ∧
    (processRecurringPayment recState2 "a@b.c" paySubscription
        "2025-01-15" 61 14 RemoteStatus.nullRes RemoteStatus.ok).balance
      = recState2.balance ∧
    ((processRecurringPayment recState2 "a@b.c" paySubscription
        "2025-01-15" 61 14 RemoteStatus.nullRes
        RemoteStatus.ok).recurringPayments.map (fun p => p.next_date))
      = ["2025-02-15"] ∧
    "2025-02-15" ≠ paySubscription.next_date := by
  exact ⟨rfl, rfl, rfl, by decide⟩

/-- deleteRecurringPayment (part_005 lines 532-544). The component-scope
const declared on line 532 shadows the gateway function imported under
the same name on line 14, so the awaited call on line 537 re-enters the
component function itself. The first argument is the recursion depth
available before the stack overflows; at depth 0 the JS engine throws a
RangeError, the nearest enclosing catch logs it, and that call resolves
undefined (`none`). Each level receives its callee's resolution as
`success`; the recurring-payments filter runs only on a true value. The
returned pair is the state after the call and the value the async
function resolves with (it has no return statement, hence `none`). -/
def deleteRecurringPaymentRec : Nat → AppState → Nat → AppState × Option Bool
  | 0, s, _ => (s, none)
  | fuel + 1, s, i =>
      let callee := deleteRecurringPaymentRec fuel s i
      match callee.2 with
      | some true =>
          ({ callee.1 with recurringPayments :=
              callee.1.recurringPayments.filter (fun p => p.id != i) },
            none)
      | _ => (callee.1, none)

/-- C9 (code evaluated at the failing input): at every recursion depth,
deleteRecurringPayment leaves the state — in particular the stored
recurring-payments set — exactly as it was and resolves undefined: the
self-shadowing recursion never reaches the gateway, so no payment is ever
removed, contradicting the claim that the call terminates and removes
the payment. -/
theorem deleteRecurringPayment_never_removes (fuel : Nat) (s : AppState)
    (i : Nat) : deleteRecurringPaymentRec fuel s i = (s, none) := by
  induction fuel with
  | zero => rfl
  | succ fuel ih => simp [deleteRecurringPaymentRec, ih]

/-- The paid-flag half of markBillAsPaidLocal (part_005 lines 729-738):
`updateBillReminder(id, { is_paid: true })` is awaited; the gateway
applies exactly the given fields to the stored row and returns it, which
for a single client is the local row with the flag set. Only a confirmed
row replaces the local one. -/
def applyBillFlagUpdate (s : AppState) (i : Nat)
    (billRemote : RemoteStatus) : AppState :=
  match billRemote with
  | .ok =>
      { s with
          billReminders := s.billReminders.map
            (fun b => if b.id = i then { b with is_paid := true } else b) }
  | _ => s

/-- markBillAsPaidLocal (part_005 lines 668-747): books the bill as an
expense through the optimistic add path (description suffixed with
" (Bill Payment)"), then flips the paid flag remotely; the flag update
sits after the create's success/failure branch in the same try block, so
it runs on a null create result too, while a throw from the awaited
create skips it (the catch only rolls the transaction back). -/
def markBillAsPaidLocal (s : AppState) (user_email : String) (i : Nat)
    (date : String) (tempN rid : Nat)
    (txRemote billRemote : RemoteStatus) : AppState :=
  match s.billReminders.find? (fun b => b.id == i) with
  | none => s
  | some bill =>
      let amountValue : Int := bill.amount * (-1)
      let newBalance : Int :=
        if s.accountId.isSome then s.balance + amountValue else s.balance
      let tempId : TxnId := .temp tempN
      let tempTransaction : Txn :=
        { id := tempId, owner_email := user_email, type := "expense",
          amount := amountValue,
          description := bill.description ++ " (Bill Payment)",
          category := bill.category, date := date }
      let txns1 : List Txn := tempTransaction :: s.transactions
      match txRemote with
      | .thrown =>
          { s with
            transactions := txns1.filter (fun t => t.id != tempId),
            balance := if s.accountId.isSome then s.balance else newBalance }
      | .ok =>
          let newTransaction : Txn :=
            { tempTransaction with id := .remote rid }
          let s1 : AppState :=
            { s with
              transactions :=
                newTransaction :: txns1.filter (fun t => t.id != tempId),
              balance := newBalance }
          applyBillFlagUpdate s1 i billRemote
      | .nullRes =>
          let s1 : AppState :=
            { s with
              transactions := txns1.filter (fun t => t.id != tempId),
              balance := if s.accountId.isSome then s.balance else newBalance }
          applyBillFlagUpdate s1 i billRemote

/-- addBillReminderLocal (part_005 lines 644-666): the reminder is
created with `is_paid: false`; only a confirmed remote row (which
carries the assigned id `rid`) is appended to the local list. -/
def addBillReminderLocal (s : AppState) (user_email description : String)
    (amount : Int) (dueDate category : String) (rid : Nat)
    (remote : RemoteStatus) : AppState :=
  match remote with
  | .ok =>
      { s with
          billReminders := s.billReminders ++
            [{ id := rid, owner_email := user_email,
               description := description, amount := amount,
               due_date := dueDate, category := category,
               is_paid := false }] }
  | _ => s

/-- deleteBillReminderLocal (part_005 lines 749-761): the local record is
removed only after the remote delete resolves true. -/
def deleteBillReminderLocal (s : AppState) (i : Nat)
    (remote : DeleteStatus) : AppState :=
  match remote with
  | .ok =>
      { s with billReminders := s.billReminders.filter (fun b => b.id != i) }
  | _ => s

/-- One completed bill-reminder operation of the system, with the
outcomes of its remote calls. -/
inductive BillOp where
  | addBill (user_email description : String) (amount : Int)
      (dueDate category : String) (rid : Nat) (remote : RemoteStatus)
  | markPaid (user_email : String) (i : Nat) (date : String)
      (tempN rid : Nat) (txRemote billRemote : RemoteStatus)
  | deleteBill (i : Nat) (remote : DeleteStatus)
deriving DecidableEq, Repr

/-- Run one completed bill-reminder operation. -/
def applyBillOp (s : AppState) : BillOp → AppState
  | .addBill ue de am du ca rid remote =>
      addBillReminderLocal s ue de am du ca rid remote
  | .markPaid ue i date tempN rid txr br =>
      markBillAsPaidLocal s ue i date tempN rid txr br
  | .deleteBill i remote => deleteBillReminderLocal s i remote

/-- The id the remote store assigns to the row an operation creates, if
the operation creates one. -/
def BillOp.newId? : BillOp → Option Nat
  | .addBill _ _ _ _ _ rid _ => some rid
  | _ => none

/-- markBillAsPaidLocal leaves the bill-reminder list unchanged or maps
the paid flag of the targeted id to true; it never writes anything else
to the list. -/
theorem markBillAsPaidLocal_billReminders (s : AppState)
    (ue : String) (i : Nat) (date : String) (tempN rid : Nat)
    (txr br : RemoteStatus) :
    (markBillAsPaidLocal s ue i date tempN rid txr br).billReminders
        = s.billReminders ∨
    (markBillAsPaidLocal s ue i date tempN rid txr br).billReminders
        = s.billReminders.map
            (fun b => if b.id = i then { b with is_paid := true } else b) := by
  cases hfind : s.billReminders.find? (fun b => b.id == i) with
  | none => left; simp [markBillAsPaidLocal, hfind]
  | some bill =>
      cases txr with
      | thrown => left; simp [markBillAsPaidLocal, hfind]
      | ok =>
          cases br with
          | ok => right; simp [markBillAsPaidLocal, hfind, applyBillFlagUpdate]
          | nullRes => left; simp [markBillAsPaidLocal, hfind, applyBillFlagUpdate]
          | thrown => left; simp [markBillAsPaidLocal, hfind, applyBillFlagUpdate]
      | nullRes =>
          cases br with
          | ok => right; simp [markBillAsPaidLocal, hfind, applyBillFlagUpdate]
          | nullRes => left; simp [markBillAsPaidLocal, hfind, applyBillFlagUpdate]
          | thrown => left; simp [markBillAsPaidLocal, hfind, applyBillFlagUpdate]

/-- A concrete unpaid 250.00 bill. -/
def billElectric : BillReminder where
  id := 5
  owner_email := "a@b.c"
  description := "electricity"
  amount := 250
  due_date := "2025-01-20"
  category := "Bills"
  is_paid := false

/-- A concrete idle state with balance 1000 holding the unpaid bill. -/
def billState : AppState where
  balance := 1000
  transactions := []
  recurringPayments := []
  billReminders := [billElectric]
  accountId := some 1

/-- C8: (a) marking the unpaid 250.00 bill as paid at balance 1000.00,
with both remote calls confirmed, yields balance 750.00, the bill's paid
flag true, and exactly one new expense transaction of amount -250 whose
description carries the " (Bill Payment)" suffix; (b) the paid flag is
monotonic: across every bill-reminder operation of the system, if every
bill of a given id is paid beforehand and the operation does not create a
fresh row under that id, every bill of that id is still paid afterwards
(no operation ever writes `is_paid: false` onto an existing row). -/
theorem markBillAsPaid_correct :
    ((markBillAsPaidLocal billState "a@b.c" 5 "2025-01-21" 70 15
        RemoteStatus.ok RemoteStatus.ok).balance = 750 ∧
      (markBillAsPaidLocal billState "a@b.c" 5 "2025-01-21" 70 15
        RemoteStatus.ok RemoteStatus.ok).billReminders.map
          (fun b => (b.id, b.is_paid)) = [(5, true)] ∧
      (markBillAsPaidLocal billState "a@b.c" 5 "2025-01-21" 70 15
        RemoteStatus.ok RemoteStatus.ok).transactions.map
          (fun t => (t.type, t.amount, t.description))
        = [("expense", -250, "electricity (Bill Payment)")]) ∧
    (∀ (s : AppState) (op : BillOp) (i : Nat),
      (∀ b ∈ s.billReminders, b.id = i → b.is_paid = true) →
      op.newId? ≠ some i →
      ∀ b' ∈ (applyBillOp s op).billReminders, b'.id = i →
        b'.is_paid = true) := by
  constructor
  · exact ⟨rfl, rfl, rfl⟩
  · intro s op i hpaid hnew b' hb' hid
    cases op with
    | addBill ue de am du ca rid remote =>
        cases remote with
        | ok =>
            simp only [applyBillOp, addBillReminderLocal] at hb'
            rcases List.mem_append.mp hb' with h | h
            · exact hpaid b' h hid
            · rcases List.mem_singleton.mp h with rfl
              have hr : rid = i := hid
              exact absurd (by simp [BillOp.newId?, hr]) hnew
        | nullRes => exact hpaid b' hb' hid
        | thrown => exact hpaid b' hb' hid
    | markPaid ue j date tempN rid txr br =>
        rcases markBillAsPaidLocal_billReminders s ue j date tempN rid txr br
          with hsame | hmap
        · rw [applyBillOp] at hb'
          rw [hsame] at hb'
          exact hpaid b' hb' hid
        · rw [applyBillOp] at hb'
          rw [hmap] at hb'
          rcases List.mem_map.mp hb' with ⟨x, hx, hxeq⟩
          by_cases hxj : x.id = j
          · rw [← hxeq]; simp [hxj]
          · have : b' = x := by rw [← hxeq]; simp [hxj]
            rw [this] at hid ⊢
            exact hpaid x hx hid
    | deleteBill j remote =>
        cases remote with
        | ok =>
            simp only [applyBillOp, deleteBillReminderLocal] at hb'
            exact hpaid b' (List.mem_of_mem_filter hb') hid
        | failed => exact hpaid b' hb' hid
        | thrown => exact hpaid b' hb' hid

/-- A paid bill used by the monotonicity witness. -/
def billWater : BillReminder where
  id := 6
  owner_email := "a@b.c"
  description := "water"
  amount := 80
  due_date := "2025-01-25"
  category := "Bills"
  is_paid := true

/-- A state holding one paid and one unpaid bill. -/
def billState2 : AppState where
  balance := 1000
  transactions := []
  recurringPayments := []
  billReminders := [billWater, billElectric]
  accountId := some 1

/-- Witness for C8: with bill 6 already paid, marking bill 5 as paid
(both remote calls confirmed) leaves every bill of id 6 paid. -/
theorem markBillAsPaid_correct_witness :
    ∀ b' ∈ (applyBillOp billState2 (BillOp.markPaid "a@b.c" 5 "2025-01-21"
      70 15 RemoteStatus.ok RemoteStatus.ok)).billReminders,
      b'.id = 6 → b'.is_paid = true := by
  exact markBillAsPaid_correct.2 billState2
    (BillOp.markPaid "a@b.c" 5 "2025-01-21" 70 15 RemoteStatus.ok
      RemoteStatus.ok) 6 (by decide) (by decide)

/-- The local staging store's transactions container: rows plus the next
auto-increment key (IndexedDB object store with keyPath id and an index
on the owner field; the source spells the indexed field `ownerEmail`,
unified here with `owner_email`). -/
structure StagingDb where
  rows : List Txn
  nextKey : Nat
deriving DecidableEq, Repr

/-- dbGetAllByOwner (part_005 lines 99-114): all rows of one owner, in
store order. -/
def dbGetAllByOwner (db : StagingDb) (owner : String) : List Txn :=
  db.rows.filter (fun t => t.owner_email == owner)

/-- The exported backup document (part_005 lines 460-471): the profile
with the password stripped — represented by the owner identifier — and
the owner's staged transactions. JSON.stringify on this plain document
followed by JSON.parse yields the same document, so the embedding passes
the document itself from export to import. -/
structure ExportData where
  user_email : String
  transactions : List Txn
deriving DecidableEq, Repr

/-- exportJSON (part_005 lines 460-471), up to the file download. -/
def exportJSON (db : StagingDb) (owner : String) : ExportData :=
  { user_email := owner, transactions := dbGetAllByOwner db owner }

/-- One dbWrite of the import loop (line 482): the file record is spread
with its id erased and the owner field forced to the importing user; the
store's autoIncrement assigns the next key. -/
def dbWriteImport (db : StagingDb) (owner : String) (t : Txn) : StagingDb :=
  { rows := db.rows ++
      [{ t with id := TxnId.localKey db.nextKey, owner_email := owner }],
    nextKey := db.nextKey + 1 }

/-- The import loop over the file's transactions array. -/
def importWrites (owner : String) : StagingDb → List Txn → StagingDb
  | db, [] => db
  | db, t :: ts => importWrites owner (dbWriteImport db owner t) ts

/-- importJSON (part_005 lines 473-505) on a successfully parsed document
whose transactions field is an array: clears the owner's staged rows,
rewrites the document's transactions with fresh keys, reloads the owner's
rows into the in-memory list, and — when an account row exists —
recalculates the balance as the current balance plus the sum of the
reloaded amounts; the trailing remote account write does not change local
state. -/
def importJSON (s : AppState) (db : StagingDb) (owner : String)
    (parsed : ExportData) : AppState × StagingDb :=
  let db1 : StagingDb :=
    { rows := db.rows.filter (fun t => t.owner_email != owner),
      nextKey := db.nextKey }
  let db2 := importWrites owner db1 parsed.transactions
  let updated := dbGetAllByOwner db2 owner
  let total : Int :=
    if s.accountId.isSome then
      updated.foldl (fun sum t => sum + t.amount) s.balance
    else s.balance
  ({ s with transactions := updated, balance := total }, db2)

/-- The rows the import loop appends: fresh consecutive keys, owner field
forced. -/
def assignKeys (owner : String) : Nat → List Txn → List Txn
  | _, [] => []
  | k, t :: ts =>
      { t with id := TxnId.localKey k, owner_email := owner }
        :: assignKeys owner (k + 1) ts

/-- A transaction record with its store key erased, for comparing
transaction sets up to the keys the staging store assigns. -/
def eraseLocalId (t : Txn) : Txn := { t with id := TxnId.localKey 0 }

theorem importWrites_rows (owner : String) (ts : List Txn) :
    ∀ db : StagingDb, (importWrites owner db ts).rows
      = db.rows ++ assignKeys owner db.nextKey ts := by
  induction ts with
  | nil => intro db; simp [importWrites, assignKeys]
  | cons t ts ih =>
      intro db
      rw [importWrites, ih, dbWriteImport]
      simp [assignKeys]

theorem assignKeys_owner_mem (owner : String) (ts : List Txn) :
    ∀ k, ∀ u ∈ assignKeys owner k ts, u.owner_email = owner := by
  induction ts with
  | nil => intro k u hu; simp [assignKeys] at hu
  | cons t ts ih =>
      intro k u hu
      rw [assignKeys] at hu
      rcases List.mem_cons.mp hu with rfl | h
      · rfl
      · exact ih (k + 1) u h

theorem filter_owner_eq_self (owner : String) (l : List Txn)
    (h : ∀ u ∈ l, u.owner_email = owner) :
    l.filter (fun t => t.owner_email == owner) = l := by
  induction l with
  | nil => rfl
  | cons a l ih =>
      have ha : (a.owner_email == owner) = true := by
        simp [h a (List.mem_cons_self a l)]
      have hl : ∀ u ∈ l, u.owner_email = owner :=
        fun u hu => h u (List.mem_cons_of_mem a hu)
      simp [List.filter_cons, ha, ih hl]

theorem filter_owner_of_cleared (owner : String) (l : List Txn) :
    (l.filter (fun t => t.owner_email != owner)).filter
      (fun t => t.owner_email == owner) = [] := by
  refine List.filter_eq_nil_iff.mpr ?_
  intro u hu
  have h : (u.owner_email != owner) = true := (List.mem_filter.mp hu).2
  simp only [bne_iff_ne, ne_eq] at h
  simp [h]

theorem assignKeys_map_eraseLocalId (owner : String) (ts : List Txn)
    (h : ∀ u ∈ ts, u.owner_email = owner) :
    ∀ k, (assignKeys owner k ts).map eraseLocalId = ts.map eraseLocalId := by
  induction ts with
  | nil => intro k; rfl
  | cons t ts ih =>
      intro k
      have ht : t.owner_email = owner := h t (List.mem_cons_self t ts)
      have hts : ∀ u ∈ ts, u.owner_email = owner :=
        fun u hu => h u (List.mem_cons_of_mem t hu)
      rw [assignKeys, List.map_cons, List.map_cons, ih hts (k + 1)]
      cases t with
      | mk id oe ty am de ca da =>
          simp only [eraseLocalId] at ht ⊢
          simp [ht]

theorem foldl_add_amount (l : List Txn) :
    ∀ b : Int, l.foldl (fun sum t => sum + t.amount) b = b + txnSum l := by
  induction l with
  | nil => intro b; simp [txnSum]
  | cons t ts ih =>
      intro b
      rw [List.foldl_cons, ih (b + t.amount)]
      simp [txnSum]
      ring

theorem assignKeys_txnSum (owner : String) (ts : List Txn) :
    ∀ k, txnSum (assignKeys owner k ts) = txnSum ts := by
  induction ts with
  | nil => intro k; rfl
  | cons t ts ih =>
      intro k
      rw [assignKeys]
      simp [txnSum, List.map_cons] at ih ⊢
      exact ih (k + 1)

theorem mem_filter_owner (owner : String) (l : List Txn) :
    ∀ u ∈ l.filter (fun t => t.owner_email == owner),
      u.owner_email = owner := by
  intro u hu
  have := List.of_mem_filter hu
  simpa using this

/-- C10: exporting an owner's staged transactions and importing the
resulting document back gives (i) an in-memory transaction set equal,
record for record and in order, to the exported set once the keys the
staging store assigns are disregarded, and (ii) a balance equal to the
pre-import balance plus the sum of the imported signed amounts, provided
an account row exists (without one the import skips the balance
recalculation). -/
theorem export_import_round_trip (a : Nat) (s : AppState) (db : StagingDb)
    (owner : String) (hacc : s.accountId = some a) :
    (importJSON s db owner (exportJSON db owner)).1.transactions.map
        eraseLocalId
      = (exportJSON db owner).transactions.map eraseLocalId ∧
    (importJSON s db owner (exportJSON db owner)).1.balance
      = s.balance + txnSum (exportJSON db owner).transactions := by
  have hsome : s.accountId.isSome = true := by rw [hacc]; rfl
  have hexp : ∀ u ∈ (exportJSON db owner).transactions,
      u.owner_email = owner := mem_filter_owner owner db.rows
  have hupdated :
      dbGetAllByOwner
        (importWrites owner
          { rows := db.rows.filter (fun t => t.owner_email != owner),
            nextKey := db.nextKey }
          (exportJSON db owner).transactions) owner
      = assignKeys owner db.nextKey (exportJSON db owner).transactions := by
    rw [dbGetAllByOwner, importWrites_rows, List.filter_append]
    rw [filter_owner_of_cleared, filter_owner_eq_self]
    · simp
    · exact assignKeys_owner_mem owner _ db.nextKey
  constructor
  · show (dbGetAllByOwner _ owner).map eraseLocalId = _
    rw [hupdated]
    exact assignKeys_map_eraseLocalId owner _ hexp db.nextKey
  · show (if s.accountId.isSome then
        (dbGetAllByOwner _ owner).foldl (fun sum t => sum + t.amount)
          s.balance
      else s.balance) = _
    rw [hsome, if_pos rfl, hupdated, foldl_add_amount, assignKeys_txnSum]

/-- A staged transaction of the exporting owner. -/
def txStaged : Txn where
  id := TxnId.localKey 0
  owner_email := "a@b.c"
  type := "income"
  amount := 200
  description := "gift"
  category := "Income"
  date := "2025-01-06"

/-- A staged transaction of a different owner, untouched by the
round trip. -/
def txOther : Txn where
  id := TxnId.localKey 1
  owner_email := "z@y.x"
  type := "expense"
  amount := -30
  description := "coffee"
  category := "Food"
  date := "2025-01-07"

/-- A concrete staging store holding both rows. -/
def sampleDb : StagingDb where
  rows := [txStaged, txOther]
  nextKey := 2

/-- Witness for C10: the concrete round trip over the two-row store
reproduces the exported single-record set up to store keys and adds its
sum (200) to the balance. -/
theorem export_import_round_trip_witness :
    (importJSON sampleState sampleDb "a@b.c"
        (exportJSON sampleDb "a@b.c")).1.transactions.map eraseLocalId
      = (exportJSON sampleDb "a@b.c").transactions.map eraseLocalId ∧
    (importJSON sampleState sampleDb "a@b.c"
        (exportJSON sampleDb "a@b.c")).1.balance
      = sampleState.balance
          + txnSum (exportJSON sampleDb "a@b.c").transactions := by
  exact export_import_round_trip 1 sampleState sampleDb "a@b.c" rfl

end PWABank
